import Mathlib

/-!
Shallow embedding of the CSV report parser and statistics engine of the
`ads-stat` repository (`src/unnamed/part_001`, exporting `parseCSVData`).

JavaScript semantics are modelled as follows:
* JS numbers holding parsed integers are modelled as `Int`; the derived
  rates (IEEE doubles) are modelled as `ℚ`.
* `Math.max(...xs)` returns `-Infinity` on an empty spread, modelled as
  `(⊥ : WithBot Int)` via `List.maximum`.
* strings are processed through their character lists so that every
  definition is structurally recursive and kernel-computable.
* the `try/catch` wrapper that converts the internal
  "Could not find data section" exception to `null` is modelled by
  returning `Option`, with `none` for `null`.
-/

/-- One character-split step. Models JS `String.prototype.split` with a
single-character separator: `splitOnC sep cs` never returns `[]`, and
splitting the empty list yields `[[]]` (JS: `"".split(",") == [""]`). -/
def splitOnC (sep : Char) : List Char → List (List Char)
  | [] => [[]]
  | c :: cs =>
    let rest := splitOnC sep cs
    if c = sep then [] :: rest
    else
      match rest with
      | [] => [[c]]
      | f :: gs => (c :: f) :: gs

/-- `s.split(sep)` for a one-character separator, as `String`s. -/
def splitStr (sep : Char) (s : String) : List String :=
  (splitOnC sep s.data).map (fun cs => String.mk cs)

/-- Models JS `String.prototype.trim` on the character list: leading and
trailing whitespace removed (JS trims all Unicode whitespace; the inputs
of this format only use ASCII whitespace, covered by `Char.isWhitespace`). -/
def trimC (cs : List Char) : List Char :=
  ((cs.dropWhile Char.isWhitespace).reverse.dropWhile Char.isWhitespace).reverse

/-- A line is blank after trimming (JS `!line.trim()`). -/
def isBlank (s : String) : Bool :=
  (trimC s.data).isEmpty

/-- `pat` is a leading segment of `cs` (character-exact). -/
def hasLead : List Char → List Char → Bool
  | [], _ => true
  | _ :: _, [] => false
  | a :: asl, b :: bs => a = b && hasLead asl bs

/-- Models JS `String.prototype.includes`: `pat` occurs contiguously in the text. -/
def hasSub (pat : List Char) : List Char → Bool
  | [] => hasLead pat []
  | c :: cs => hasLead pat (c :: cs) || hasSub pat cs

/-- Models `parseInt(s) || 0` of the source: leading whitespace skipped, an
optional sign, then the longest run of decimal digits; when no digit is
found `parseInt` yields `NaN` and `|| 0` turns it into `0` (it also turns a
parsed `-0` into `0`, which coincides with `-(0 : Int) = 0`). The hexadecimal
`0x` prefix of `parseInt` never occurs in this numeric-column format and is
not modelled. -/
def parseIntJS (s : String) : Int :=
  let body := fun (sign : Int) (cs : List Char) =>
    let ds := cs.takeWhile Char.isDigit
    if ds.isEmpty then 0
    else sign * (Int.ofNat (ds.foldl (fun n c => 10 * n + (c.toNat - 48)) 0))
  match s.data.dropWhile Char.isWhitespace with
  | '+' :: rest => body 1 rest
  | '-' :: rest => body (-1) rest
  | cs => body 1 cs

/-- One parsed data row (`AdData` of the source, all 24 fields). Numeric
columns come from `parseInt(...) || 0`, string columns from `row[i] || ''`. -/
structure AdData where
  order : Int
  keyword : String
  keywordType : String
  searchCommand : String
  biddingMethod : String
  views : Int
  clicks : Int
  clickRate : String
  conversions : Int
  directConversions : Int
  conversionRate : String
  directConversionRate : String
  costPerConversion : String
  directCostPerConversion : String
  productsSold : Int
  directProductsSold : Int
  gmv : Int
  directGmv : Int
  cost : Int
  averageRank : Int
  roas : String
  directRoas : String
  acos : String
  directAcos : String
deriving DecidableEq, Repr

/-- `AdReportHeader` of the source. -/
structure AdReportHeader where
  reportTitle : String
  username : String
  storeName : String
  sellerId : String
  adName : String
  productId : String
  reportCreationTime : String
  timeRange : String
deriving DecidableEq, Repr

/-- One entry of `statistics.topKeywords`. -/
structure TopKeyword where
  keyword : String
  views : Int
  clicks : Int
  cost : Int
deriving DecidableEq, Repr

/-- `statistics.maxValues`. The fields model JS numbers produced by
`Math.max(...)`, whose value on an empty spread is `-Infinity = ⊥`. -/
structure MaxValues where
  views : WithBot Int
  clicks : WithBot Int
  cost : WithBot Int
  gmv : WithBot Int
deriving DecidableEq, Repr

/-- `statistics.minValues` (the source guards the empty case with `0`). -/
structure MinValues where
  views : Int
  clicks : Int
  cost : Int
  gmv : Int
deriving DecidableEq, Repr

/-- The `statistics` object of `ParsedAdData`. -/
structure Statistics where
  totalViews : Int
  totalClicks : Int
  totalCost : Int
  totalGmv : Int
  totalConversions : Int
  averageClickRate : ℚ
  averageConversionRate : ℚ
  topKeywords : List TopKeyword
  maxValues : MaxValues
  minValues : MinValues
deriving DecidableEq, Repr

/-- `ParsedAdData` of the source. -/
structure ParsedAdData where
  header : AdReportHeader
  data : List AdData
  statistics : Statistics
deriving DecidableEq, Repr

/-- `csvText.split('\n').filter((line) => line.trim())`. -/
def filteredLines (csvText : String) : List String :=
  (splitStr '\n' csvText).filter (fun l => !isBlank l)

/-- `lines[i]?.split(',')[1] || ''`: the second comma-delimited field of
line `i`, or the empty string when the line or the field is absent. -/
def secondField (lines : List String) (i : Nat) : String :=
  match lines.get? i with
  | none => ""
  | some l => (splitStr ',' l).getD 1 ""

/-- Header extraction of `parseCSVData` (fixed positions in the filtered
line list; line 6 is skipped). -/
def parseHeader (lines : List String) : AdReportHeader :=
  { reportTitle := lines.getD 0 ""
    username := secondField lines 1
    storeName := secondField lines 2
    sellerId := secondField lines 3
    adName := secondField lines 4
    productId := secondField lines 5
    reportCreationTime := secondField lines 7
    timeRange := secondField lines 8 }

/-- The literal column-header marker `'Thứ tự,Từ khóa,Loại từ khóa'`. -/
def markerData : List Char :=
  "Thứ tự,Từ khóa,Loại từ khóa".data

/-- The scan for the data section: the index one past the first line whose
text contains the marker (`dataStartIndex` of the source), or `none` when no
line matches (the source throws, caught below). -/
def findDataStart : List String → Option Nat
  | [] => none
  | l :: ls =>
    if hasSub markerData l.data then some 1
    else (findDataStart ls).map (fun i => i + 1)

/-- Builds one `AdData` from a field row of length ≥ 24, mirroring the
source's field-by-field construction. -/
def buildAdData (row : List String) : AdData :=
  { order := parseIntJS (row.getD 0 "")
    keyword := row.getD 1 ""
    keywordType := row.getD 2 ""
    searchCommand := row.getD 3 ""
    biddingMethod := row.getD 4 ""
    views := parseIntJS (row.getD 5 "")
    clicks := parseIntJS (row.getD 6 "")
    clickRate := row.getD 7 ""
    conversions := parseIntJS (row.getD 8 "")
    directConversions := parseIntJS (row.getD 9 "")
    conversionRate := row.getD 10 ""
    directConversionRate := row.getD 11 ""
    costPerConversion := row.getD 12 ""
    directCostPerConversion := row.getD 13 ""
    productsSold := parseIntJS (row.getD 14 "")
    directProductsSold := parseIntJS (row.getD 15 "")
    gmv := parseIntJS (row.getD 16 "")
    directGmv := parseIntJS (row.getD 17 "")
    cost := parseIntJS (row.getD 18 "")
    averageRank := parseIntJS (row.getD 19 "")
    roas := row.getD 20 ""
    directRoas := row.getD 21 ""
    acos := row.getD 22 ""
    directAcos := row.getD 23 "" }

/-- One iteration of the data-row loop: blank lines are skipped, the line is
split into fields (the external field splitter, used by the source through
`Papa.parse(line, { delimiter: ',' })`, is modelled as the comma split — the
claims under study never exercise quoted fields), and rows with fewer than 24
fields are discarded without error. -/
def parseDataLine (line : String) : Option AdData :=
  if isBlank line then none
  else
    let row := splitStr ',' line
    if 24 ≤ row.length then some (buildAdData row) else none

/-- The comparator `(a, b) => b.views - a.views` of the source orders records
by non-increasing `views`; `viewsGe a b` states that `a` may come before `b`. -/
def viewsGe (a b : AdData) : Prop :=
  b.views ≤ a.views

instance : DecidableRel viewsGe := fun a b =>
  inferInstanceAs (Decidable (b.views ≤ a.views))

instance : IsTotal AdData viewsGe :=
  ⟨fun a b => le_total b.views a.views⟩

instance : IsTrans AdData viewsGe :=
  ⟨fun _ _ _ hab hbc => le_trans hbc hab⟩

/-- `data.sort((a, b) => b.views - a.views)`: a stable sort by non-increasing
`views` (JS `Array.prototype.sort` is stable; insertion sort with `viewsGe`
keeps the original order of ties the same way). -/
def sortRecords (data : List AdData) : List AdData :=
  data.insertionSort viewsGe

/-- `nonZero.length > 0 ? Math.min(...nonZero) : 0` where `nonZero` is the
projection `f` over the records with `f` strictly positive. -/
def minOverPositive (f : AdData → Int) (data : List AdData) : Int :=
  if 0 < ((data.filter (fun r => decide (0 < f r))).map f).length then
    ((data.filter (fun r => decide (0 < f r))).map f).minimum.untop' 0
  else 0

/-- The statistics block of `parseCSVData`, as a function of the parsed
record list (the source computes it inline; the in-place
`data.sort` shows up both here, for `topKeywords`, and in the `data` field
of the returned value). -/
def computeStatistics (data : List AdData) : Statistics :=
  let totalViews := data.foldl (fun sum r => sum + r.views) 0
  let totalClicks := data.foldl (fun sum r => sum + r.clicks) 0
  let totalCost := data.foldl (fun sum r => sum + r.cost) 0
  let totalGmv := data.foldl (fun sum r => sum + r.gmv) 0
  let totalConversions := data.foldl (fun sum r => sum + r.conversions) 0
  { totalViews := totalViews
    totalClicks := totalClicks
    totalCost := totalCost
    totalGmv := totalGmv
    totalConversions := totalConversions
    averageClickRate :=
      if 0 < totalViews then ((totalClicks : ℚ) / (totalViews : ℚ)) * 100 else 0
    averageConversionRate :=
      if 0 < totalClicks then ((totalConversions : ℚ) / (totalClicks : ℚ)) * 100 else 0
    topKeywords :=
      ((sortRecords data).take 10).map (fun r =>
        { keyword := r.keyword, views := r.views, clicks := r.clicks, cost := r.cost })
    maxValues :=
      { views := (data.map (fun r => r.views)).maximum
        clicks := (data.map (fun r => r.clicks)).maximum
        cost := (data.map (fun r => r.cost)).maximum
        gmv := (data.map (fun r => r.gmv)).maximum }
    minValues :=
      { views := minOverPositive (fun r => r.views) data
        clicks := minOverPositive (fun r => r.clicks) data
        cost := minOverPositive (fun r => r.cost) data
        gmv := minOverPositive (fun r => r.gmv) data } }

/-- `parseCSVData`: `none` models the `null` produced by the `catch` around
the whole body (whose only reachable `throw` is the missing-marker error);
on success the returned `data` is the record array after the in-place sort. -/
def parseCSVData (csvText : String) : Option ParsedAdData :=
  match findDataStart (filteredLines csvText) with
  | none => none
  | some start =>
    some { header := parseHeader (filteredLines csvText)
           data := sortRecords (((filteredLines csvText).drop start).filterMap parseDataLine)
           statistics := computeStatistics (((filteredLines csvText).drop start).filterMap parseDataLine) }

/-- Folding `fun sum r => sum + f r` (the `reduce` of the source) from `a`
computes `a` plus the sum of the projections. -/
lemma foldl_add_eq_sum (f : AdData → Int) (data : List AdData) (a : Int) :
    data.foldl (fun sum r => sum + f r) a = a + (data.map f).sum := by
  induction data generalizing a with
  | nil => simp
  | cons r rs ih => simp [ih, add_assoc]

/-- C6: for every AdRecord sequence, `statistics.totalViews` equals the sum of
the `views` field over all records, and analogously `totalClicks`, `totalCost`,
`totalGmv`, and `totalConversions` equal the sums of `clicks`, `cost`, `gmv`,
and `conversions` respectively. -/
theorem claim_C6_totals (data : List AdData) :
    (computeStatistics data).totalViews = (data.map (fun r => r.views)).sum ∧
    (computeStatistics data).totalClicks = (data.map (fun r => r.clicks)).sum ∧
    (computeStatistics data).totalCost = (data.map (fun r => r.cost)).sum ∧
    (computeStatistics data).totalGmv = (data.map (fun r => r.gmv)).sum ∧
    (computeStatistics data).totalConversions = (data.map (fun r => r.conversions)).sum := by
  refine ⟨?_, ?_, ?_, ?_, ?_⟩ <;>
    simp [computeStatistics, foldl_add_eq_sum]

/-- C1 (code bug): on an input whose data section is present but empty, the
parse succeeds with an empty record sequence, yet every `maxValues` field is
`Math.max()` of an empty spread, i.e. `-Infinity` (modelled `⊥`) — not `0` as
the specification states. -/
theorem claim_C1_maxValues_empty_is_negInfinity :
    (parseCSVData "Thứ tự,Từ khóa,Loại từ khóa").map (fun r => r.data) = some [] ∧
    (parseCSVData "Thứ tự,Từ khóa,Loại từ khóa").map (fun r => r.statistics.maxValues) =
      some { views := ⊥, clicks := ⊥, cost := ⊥, gmv := ⊥ } ∧
    some { views := ⊥, clicks := ⊥, cost := ⊥, gmv := ⊥ } ≠
      some ({ views := 0, clicks := 0, cost := 0, gmv := 0 } : MaxValues) := by
  refine ⟨by decide, by decide, by decide⟩

/-- C10: `parseCSVData` is total — it returns `some` fully populated result or
`none` — and `none` occurs exactly when the data-section scan fails (the only
reachable failure, converted by the surrounding catch). -/
theorem claim_C10_total_none_iff_no_marker (csvText : String) :
    (parseCSVData csvText = none ∨ ∃ r, parseCSVData csvText = some r) ∧
    (parseCSVData csvText = none ↔ findDataStart (filteredLines csvText) = none) := by
  constructor
  · cases h : parseCSVData csvText
    · exact Or.inl rfl
    · exact Or.inr ⟨_, rfl⟩
  · unfold parseCSVData
    cases h : findDataStart (filteredLines csvText) <;> simp [h]

/-- Witness for C10: a concrete input with no marker line parses to `none`. -/
theorem claim_C10_witness : parseCSVData "no marker here" = none :=
  (claim_C10_total_none_iff_no_marker "no marker here").2.mpr (by decide)

/-- A missing second comma field yields the empty string. -/
lemma secondField_of_short (lines : List String) (i : Nat) (l : String)
    (hget : lines.get? i = some l) (hlen : (splitStr ',' l).length < 2) :
    secondField lines i = "" := by
  unfold secondField
  rw [hget]
  show (splitStr ',' l).getD 1 "" = ""
  rw [List.getD_eq_getElem?_getD, List.getElem?_eq_none (by omega)]
  rfl

/-- A missing line yields the empty string for its header field. -/
lemma secondField_of_missing (lines : List String) (i : Nat)
    (hget : lines.get? i = none) :
    secondField lines i = "" := by
  unfold secondField
  rw [hget]

/-- C2: on any successful parse, the header comes from fixed positions of the
filtered line list — line 0 whole as the title, the second comma field of
lines 1–5 as username, store name, seller id, ad name, product id, of line 7
as the creation time and of line 8 as the time range (line 6 skipped) — and a
missing line or a line with fewer than two comma fields yields the empty
string without failing the parse. -/
theorem claim_C2_header_fixed_positions (csvText : String)
    (h : (parseCSVData csvText).isSome = true) :
    ((parseCSVData csvText).map (fun r => r.header) =
      some { reportTitle := (filteredLines csvText).getD 0 ""
             username := secondField (filteredLines csvText) 1
             storeName := secondField (filteredLines csvText) 2
             sellerId := secondField (filteredLines csvText) 3
             adName := secondField (filteredLines csvText) 4
             productId := secondField (filteredLines csvText) 5
             reportCreationTime := secondField (filteredLines csvText) 7
             timeRange := secondField (filteredLines csvText) 8 }) ∧
    (∀ i, (filteredLines csvText).get? i = none →
      secondField (filteredLines csvText) i = "") ∧
    (∀ i l, (filteredLines csvText).get? i = some l → (splitStr ',' l).length < 2 →
      secondField (filteredLines csvText) i = "") := by
  refine ⟨?_, fun i hi => secondField_of_missing _ i hi,
    fun i l hl hlen => secondField_of_short _ i l hl hlen⟩
  unfold parseCSVData at h ⊢
  cases hfind : findDataStart (filteredLines csvText) with
  | none => rw [hfind] at h; simp at h
  | some start => rfl

/-- Witness for C2: the header extracted from a concrete report. -/
theorem claim_C2_witness :
    (parseCSVData "Title\nU,user\nS,shop\nI,77\nA,ad\nP,99\nsep\nT,today\nR,week\nThứ tự,Từ khóa,Loại từ khóa").map (fun r => r.header) =
      some { reportTitle := (filteredLines "Title\nU,user\nS,shop\nI,77\nA,ad\nP,99\nsep\nT,today\nR,week\nThứ tự,Từ khóa,Loại từ khóa").getD 0 ""
             username := secondField (filteredLines "Title\nU,user\nS,shop\nI,77\nA,ad\nP,99\nsep\nT,today\nR,week\nThứ tự,Từ khóa,Loại từ khóa") 1
             storeName := secondField (filteredLines "Title\nU,user\nS,shop\nI,77\nA,ad\nP,99\nsep\nT,today\nR,week\nThứ tự,Từ khóa,Loại từ khóa") 2
             sellerId := secondField (filteredLines "Title\nU,user\nS,shop\nI,77\nA,ad\nP,99\nsep\nT,today\nR,week\nThứ tự,Từ khóa,Loại từ khóa") 3
             adName := secondField (filteredLines "Title\nU,user\nS,shop\nI,77\nA,ad\nP,99\nsep\nT,today\nR,week\nThứ tự,Từ khóa,Loại từ khóa") 4
             productId := secondField (filteredLines "Title\nU,user\nS,shop\nI,77\nA,ad\nP,99\nsep\nT,today\nR,week\nThứ tự,Từ khóa,Loại từ khóa") 5
             reportCreationTime := secondField (filteredLines "Title\nU,user\nS,shop\nI,77\nA,ad\nP,99\nsep\nT,today\nR,week\nThứ tự,Từ khóa,Loại từ khóa") 7
             timeRange := secondField (filteredLines "Title\nU,user\nS,shop\nI,77\nA,ad\nP,99\nsep\nT,today\nR,week\nThứ tự,Từ khóa,Loại từ khóa") 8 } :=
  (claim_C2_header_fixed_positions _ (by decide)).1

/-- If no line contains the marker, the scan fails. -/
lemma findDataStart_of_no_marker (lines : List String)
    (h : ∀ l ∈ lines, hasSub markerData l.data = false) :
    findDataStart lines = none := by
  induction lines with
  | nil => rfl
  | cons l ls ih =>
    unfold findDataStart
    rw [h l (List.mem_cons_self l ls)]
    simp [ih (fun x hx => h x (List.mem_cons_of_mem _ hx))]

/-- If line `i` is the first one containing the marker, the scan yields
`i + 1` (the loop sets `dataStartIndex = i + 1` and breaks). -/
lemma findDataStart_of_first_marker (lines : List String) (i : Nat) (l : String)
    (hget : lines.get? i = some l) (hmark : hasSub markerData l.data = true)
    (hleast : ∀ j, j < i →
      ((lines.get? j).all (fun x => !hasSub markerData x.data)) = true) :
    findDataStart lines = some (i + 1) := by
  induction lines generalizing i with
  | nil => simp at hget
  | cons a ls ih =>
    cases i with
    | zero =>
      have ha : a = l := by simpa using hget
      unfold findDataStart
      rw [ha, hmark]
      rfl
    | succ n =>
      have h0 := hleast 0 (Nat.succ_pos n)
      have ha : hasSub markerData a.data = false := by simpa using h0
      unfold findDataStart
      rw [ha]
      have hrec := ih n (by simpa using hget)
        (fun j hj => by simpa using hleast (j + 1) (by omega))
      simp [hrec]

/-- C3: if no filtered line contains the literal marker
`'Thứ tự,Từ khóa,Loại từ khóa'`, the whole parse fails with no partial
result; if some line contains it, the data section consists of the lines
immediately after the first such line. -/
theorem claim_C3_marker_scan (csvText : String) :
    ((∀ l ∈ filteredLines csvText, hasSub markerData l.data = false) →
      parseCSVData csvText = none) ∧
    (∀ i l, (filteredLines csvText).get? i = some l →
      hasSub markerData l.data = true →
      (∀ j, j < i →
        ((filteredLines csvText).get? j).all (fun x => !hasSub markerData x.data) = true) →
      (parseCSVData csvText).map (fun r => r.data) =
        some (sortRecords (((filteredLines csvText).drop (i + 1)).filterMap parseDataLine))) := by
  constructor
  · intro h
    unfold parseCSVData
    rw [findDataStart_of_no_marker _ h]
  · intro i l hget hmark hleast
    unfold parseCSVData
    rw [findDataStart_of_first_marker _ i l hget hmark hleast]
    rfl

/-- Witness for C3: in a concrete input the marker sits at filtered index 1,
so the records come from the lines after it. -/
theorem claim_C3_witness :
    (parseCSVData "Title\nThứ tự,Từ khóa,Loại từ khóa\n1,k,t,s,b,6,2,r,1,0,a,b,c,d,0,0,5,0,3,1,x,y,z,w").map (fun r => r.data) =
      some (sortRecords (((filteredLines "Title\nThứ tự,Từ khóa,Loại từ khóa\n1,k,t,s,b,6,2,r,1,0,a,b,c,d,0,0,5,0,3,1,x,y,z,w").drop 2).filterMap parseDataLine)) :=
  (claim_C3_marker_scan _).2 1 "Thứ tự,Từ khóa,Loại từ khóa"
    (by decide) (by decide) (by decide)

/-- With no strictly positive value, the zero-excluded minimum falls back to `0`. -/
lemma minOverPositive_of_no_pos (f : AdData → Int) (data : List AdData)
    (h : ∀ r ∈ data, ¬ 0 < f r) :
    minOverPositive f data = 0 := by
  unfold minOverPositive
  have hfil : data.filter (fun r => decide (0 < f r)) = [] := by
    rw [List.filter_eq_nil_iff]
    intro a ha
    simpa using h a ha
  simp [hfil]

/-- With some strictly positive value, the zero-excluded minimum is attained
at a record with a positive value and bounds every positive value below. -/
lemma minOverPositive_of_pos (f : AdData → Int) (data : List AdData)
    (x : AdData) (hx : x ∈ data) (hpos : 0 < f x) :
    (∃ r ∈ data, 0 < f r ∧ minOverPositive f data = f r) ∧
    (∀ r ∈ data, 0 < f r → minOverPositive f data ≤ f r) := by
  have hmem : f x ∈ (data.filter (fun r => decide (0 < f r))).map f :=
    List.mem_map_of_mem f (List.mem_filter.mpr ⟨hx, by simpa using hpos⟩)
  have hne : (data.filter (fun r => decide (0 < f r))).map f ≠ [] :=
    List.ne_nil_of_mem hmem
  have hlen : 0 < ((data.filter (fun r => decide (0 < f r))).map f).length :=
    List.length_pos.mpr hne
  cases hmin : ((data.filter (fun r => decide (0 < f r))).map f).minimum with
  | top =>
    rw [List.minimum_eq_top] at hmin
    exact absurd hmin hne
  | coe m =>
    have hval : minOverPositive f data = m := by
      unfold minOverPositive
      rw [if_pos hlen, hmin]
      rfl
    have hm_mem : m ∈ (data.filter (fun r => decide (0 < f r))).map f :=
      List.minimum_mem hmin
    obtain ⟨r, hrfil, hrval⟩ := List.mem_map.mp hm_mem
    obtain ⟨hrdata, hrpos⟩ := List.mem_filter.mp hrfil
    refine ⟨⟨r, hrdata, by simpa using hrpos, by rw [hval, hrval]⟩, ?_⟩
    intro q hq hqpos
    have hqmem : f q ∈ (data.filter (fun r => decide (0 < f r))).map f :=
      List.mem_map_of_mem f (List.mem_filter.mpr ⟨hq, by simpa using hqpos⟩)
    have := List.minimum_le_of_mem hqmem hmin
    rw [hval]
    exact this

/-- The two cases of the zero-excluded-minimum policy, packaged per metric. -/
lemma minOverPositive_full (f : AdData → Int) (data : List AdData) :
    ((∀ r ∈ data, ¬ 0 < f r) → minOverPositive f data = 0) ∧
    (∀ x ∈ data, 0 < f x →
      (∃ r ∈ data, 0 < f r ∧ minOverPositive f data = f r) ∧
      (∀ r ∈ data, 0 < f r → minOverPositive f data ≤ f r)) :=
  ⟨minOverPositive_of_no_pos f data,
   fun x hx hpos => minOverPositive_of_pos f data x hx hpos⟩

/-- C4: for every AdRecord sequence and each metric in
{views, clicks, cost, gmv}, `statistics.minValues` of that metric is `0` when
no record has a strictly positive value, and otherwise is the minimum over
exactly the records whose value is strictly positive (attained at such a
record and below every positive value). -/
theorem claim_C4_minValues_zero_excluded (data : List AdData) :
    (((∀ r ∈ data, ¬ 0 < r.views) → (computeStatistics data).minValues.views = 0) ∧
      (∀ x ∈ data, 0 < x.views →
        (∃ r ∈ data, 0 < r.views ∧ (computeStatistics data).minValues.views = r.views) ∧
        (∀ r ∈ data, 0 < r.views → (computeStatistics data).minValues.views ≤ r.views))) ∧
    (((∀ r ∈ data, ¬ 0 < r.clicks) → (computeStatistics data).minValues.clicks = 0) ∧
      (∀ x ∈ data, 0 < x.clicks →
        (∃ r ∈ data, 0 < r.clicks ∧ (computeStatistics data).minValues.clicks = r.clicks) ∧
        (∀ r ∈ data, 0 < r.clicks → (computeStatistics data).minValues.clicks ≤ r.clicks))) ∧
    (((∀ r ∈ data, ¬ 0 < r.cost) → (computeStatistics data).minValues.cost = 0) ∧
      (∀ x ∈ data, 0 < x.cost →
        (∃ r ∈ data, 0 < r.cost ∧ (computeStatistics data).minValues.cost = r.cost) ∧
        (∀ r ∈ data, 0 < r.cost → (computeStatistics data).minValues.cost ≤ r.cost))) ∧
    (((∀ r ∈ data, ¬ 0 < r.gmv) → (computeStatistics data).minValues.gmv = 0) ∧
      (∀ x ∈ data, 0 < x.gmv →
        (∃ r ∈ data, 0 < r.gmv ∧ (computeStatistics data).minValues.gmv = r.gmv) ∧
        (∀ r ∈ data, 0 < r.gmv → (computeStatistics data).minValues.gmv ≤ r.gmv))) :=
  ⟨minOverPositive_full (fun r => r.views) data,
   minOverPositive_full (fun r => r.clicks) data,
   minOverPositive_full (fun r => r.cost) data,
   minOverPositive_full (fun r => r.gmv) data⟩

/-- A concrete record used by witness instantiations
(views 100, clicks 10, conversions 2, gmv 50, cost 30). -/
def sampleRec : AdData :=
  buildAdData (splitStr ',' "1,alpha,t,s,b,100,10,r,2,0,a,b,c,d,0,0,50,0,30,1,x,y,z,w")

/-- Witness for C4: on a one-record sequence the zero-excluded minimum of
`views` is bounded by the record's (positive) `views`. -/
theorem claim_C4_witness :
    (computeStatistics [sampleRec]).minValues.views ≤ sampleRec.views :=
  (((claim_C4_minValues_zero_excluded [sampleRec]).1.2 sampleRec (by decide)
    (by decide)).2) sampleRec (by decide) (by decide)

/-- C5: for every AdRecord sequence of length `n`, `statistics.topKeywords`
has length `min 10 n`, is ordered by non-increasing `views`, and each entry
carries the keyword, views, clicks and cost of a record of the sequence. -/
theorem claim_C5_topKeywords_shape (data : List AdData) :
    (computeStatistics data).topKeywords.length = min 10 data.length ∧
    List.Sorted (fun a b : TopKeyword => b.views ≤ a.views)
      (computeStatistics data).topKeywords ∧
    (∀ t ∈ (computeStatistics data).topKeywords,
      ∃ r ∈ data, t.keyword = r.keyword ∧ t.views = r.views ∧
        t.clicks = r.clicks ∧ t.cost = r.cost) := by
  refine ⟨?_, ?_, ?_⟩
  · show (((sortRecords data).take 10).map _).length = _
    simp [sortRecords, List.length_take, List.length_insertionSort]
  · show List.Sorted _ (((sortRecords data).take 10).map _)
    have hs : List.Sorted viewsGe (sortRecords data) :=
      List.sorted_insertionSort viewsGe data
    have hts : List.Sorted viewsGe ((sortRecords data).take 10) :=
      List.Pairwise.sublist (List.take_sublist 10 _) hs
    exact List.Pairwise.map _ (fun a b hab => hab) hts
  · intro t ht
    replace ht : t ∈ ((sortRecords data).take 10).map
        (fun r => ({ keyword := r.keyword, views := r.views, clicks := r.clicks,
                     cost := r.cost } : TopKeyword)) := ht
    obtain ⟨r, hrt, rfl⟩ := List.mem_map.mp ht
    have hrs : r ∈ sortRecords data := List.mem_of_mem_take hrt
    have hrd : r ∈ data := by
      have := (List.perm_insertionSort viewsGe data).mem_iff.mp hrs
      simpa [sortRecords] using this
    exact ⟨r, hrd, rfl, rfl, rfl, rfl⟩

/-- Witness for C5: a one-record sequence yields `min 10 1` top entries. -/
theorem claim_C5_witness :
    (computeStatistics [sampleRec]).topKeywords.length = min 10 [sampleRec].length :=
  (claim_C5_topKeywords_shape [sampleRec]).1

/-- Zero denominator: the guarded rate is `0`. -/
lemma guarded_rate_of_zero (tv tc : Int) (h : tv = 0) :
    (if 0 < tv then ((tc : ℚ) / (tv : ℚ)) * 100 else 0) = 0 := by
  rw [if_neg]
  omega

/-- Positive-capable denominator: the guard passes and the rate is the quotient. -/
lemma guarded_rate_of_ne (tv tc : Int) (hnn : 0 ≤ tv) (h : tv ≠ 0) :
    (if 0 < tv then ((tc : ℚ) / (tv : ℚ)) * 100 else 0) =
      ((tc : ℚ) / (tv : ℚ)) * 100 := by
  rw [if_pos]
  omega

/-- Sums of a non-negative projection are non-negative. -/
lemma foldl_add_nonneg (f : AdData → Int) (data : List AdData)
    (h : ∀ r ∈ data, 0 ≤ f r) :
    0 ≤ data.foldl (fun sum r => sum + f r) 0 := by
  rw [foldl_add_eq_sum, zero_add]
  refine List.sum_nonneg ?_
  intro x hx
  obtain ⟨r, hr, rfl⟩ := List.mem_map.mp hx
  exact h r hr

/-- C7: over sequences satisfying the data-model invariant that `views`,
`clicks` and `conversions` are non-negative counts, `averageClickRate` is `0`
exactly when `totalViews = 0` and otherwise `totalClicks / totalViews * 100`,
and `averageConversionRate` is `0` exactly when `totalClicks = 0` and
otherwise `totalConversions / totalClicks * 100`; both are total rational
values, never undefined or infinite. -/
theorem claim_C7_guarded_rates (data : List AdData)
    (hinv : ∀ r ∈ data, 0 ≤ r.views ∧ 0 ≤ r.clicks ∧ 0 ≤ r.conversions) :
    ((computeStatistics data).totalViews = 0 →
      (computeStatistics data).averageClickRate = 0) ∧
    ((computeStatistics data).totalViews ≠ 0 →
      (computeStatistics data).averageClickRate =
        ((computeStatistics data).totalClicks : ℚ) /
          ((computeStatistics data).totalViews : ℚ) * 100) ∧
    ((computeStatistics data).totalClicks = 0 →
      (computeStatistics data).averageConversionRate = 0) ∧
    ((computeStatistics data).totalClicks ≠ 0 →
      (computeStatistics data).averageConversionRate =
        ((computeStatistics data).totalConversions : ℚ) /
          ((computeStatistics data).totalClicks : ℚ) * 100) := by
  have hv : 0 ≤ data.foldl (fun sum r => sum + r.views) 0 :=
    foldl_add_nonneg (fun r => r.views) data (fun r hr => (hinv r hr).1)
  have hc : 0 ≤ data.foldl (fun sum r => sum + r.clicks) 0 :=
    foldl_add_nonneg (fun r => r.clicks) data (fun r hr => (hinv r hr).2.1)
  exact ⟨fun h0 => guarded_rate_of_zero _ _ h0,
         fun hne => guarded_rate_of_ne _ _ hv hne,
         fun h0 => guarded_rate_of_zero _ _ h0,
         fun hne => guarded_rate_of_ne _ _ hc hne⟩

/-- Witness for C7: with one record of 100 views and 10 clicks the average
click rate is the unguarded quotient. -/
theorem claim_C7_witness :
    (computeStatistics [sampleRec]).averageClickRate =
      ((computeStatistics [sampleRec]).totalClicks : ℚ) /
        ((computeStatistics [sampleRec]).totalViews : ℚ) * 100 :=
  (claim_C7_guarded_rates [sampleRec] (by decide)).2.1 (by decide)

/-- A line whose field split has fewer than 24 fields yields no record. -/
lemma parseDataLine_of_short (line : String)
    (h : (splitStr ',' line).length < 24) :
    parseDataLine line = none := by
  unfold parseDataLine
  by_cases hb : isBlank line
  · simp [hb]
  · simp only [hb, Bool.false_eq_true, if_false]
    rw [if_neg (by omega)]

/-- C8 (amended): a data-section line whose field split has fewer than 24
fields produces no record and no error, every other line still produces its
record, and the record sequence is exactly that of the same data-line list
without the short line (so the record count equals — not exceeds by one —
that of the input without the row). -/
theorem claim_C8_short_row_amended (pre post : List String) (line : String)
    (h : (splitStr ',' line).length < 24) :
    (pre ++ line :: post).filterMap parseDataLine =
      (pre ++ post).filterMap parseDataLine ∧
    ((pre ++ line :: post).filterMap parseDataLine).length =
      ((pre ++ post).filterMap parseDataLine).length := by
  have hnone : parseDataLine line = none := parseDataLine_of_short line h
  constructor
  · simp [List.filterMap_append, List.filterMap_cons, hnone]
  · simp [List.filterMap_append, List.filterMap_cons, hnone]

/-- Witness for C8 (amended): a 3-field row among two valid 24-field rows
contributes nothing to the record sequence. -/
theorem claim_C8_witness :
    (["1,k,t,s,b,6,2,r,1,0,a,b,c,d,0,0,5,0,3,1,x,y,z,w"] ++ "1,2,3" ::
        ["2,kk,t,s,b,9,3,r,1,0,a,b,c,d,0,0,5,0,4,1,x,y,z,w"]).filterMap parseDataLine =
      (["1,k,t,s,b,6,2,r,1,0,a,b,c,d,0,0,5,0,3,1,x,y,z,w"] ++
        ["2,kk,t,s,b,9,3,r,1,0,a,b,c,d,0,0,5,0,4,1,x,y,z,w"]).filterMap parseDataLine :=
  (claim_C8_short_row_amended _ _ "1,2,3" (by decide)).1

/-- C8 (counterexample): with one short row among two valid rows the parse
yields 2 records, and so does the same input without the short row — the
count does not decrease by 1 relative to the input without that row. -/
theorem claim_C8_counterexample :
    (parseCSVData "Thứ tự,Từ khóa,Loại từ khóa\n1,k,t,s,b,6,2,r,1,0,a,b,c,d,0,0,5,0,3,1,x,y,z,w\n1,2,3\n2,kk,t,s,b,9,3,r,1,0,a,b,c,d,0,0,5,0,4,1,x,y,z,w").map
        (fun r => r.data.length) = some 2 ∧
    (parseCSVData "Thứ tự,Từ khóa,Loại từ khóa\n1,k,t,s,b,6,2,r,1,0,a,b,c,d,0,0,5,0,3,1,x,y,z,w\n2,kk,t,s,b,9,3,r,1,0,a,b,c,d,0,0,5,0,4,1,x,y,z,w").map
        (fun r => r.data.length) = some 2 ∧
    (2 : Nat) ≠ 2 - 1 := by
  refine ⟨by decide, by decide, by decide⟩

/-- C9: on every successful parse the returned `data` field is the record
array after the in-place ranking sort — it is ordered by non-increasing
`views` and is a permutation of the records in original source order. -/
theorem claim_C9_returned_data_resorted (csvText : String) (start : Nat)
    (h : findDataStart (filteredLines csvText) = some start) :
    (parseCSVData csvText).map (fun r => r.data) =
      some (sortRecords (((filteredLines csvText).drop start).filterMap parseDataLine)) ∧
    (∀ r, parseCSVData csvText = some r →
      List.Sorted viewsGe r.data ∧
      r.data.Perm (((filteredLines csvText).drop start).filterMap parseDataLine)) := by
  constructor
  · unfold parseCSVData
    rw [h]
    rfl
  · intro r hr
    unfold parseCSVData at hr
    rw [h] at hr
    have hr' : r = { header := parseHeader (filteredLines csvText)
                     data := sortRecords (((filteredLines csvText).drop start).filterMap parseDataLine)
                     statistics := computeStatistics (((filteredLines csvText).drop start).filterMap parseDataLine) } := by
      cases hr
      rfl
    subst hr'
    exact ⟨List.sorted_insertionSort viewsGe _, List.perm_insertionSort viewsGe _⟩

/-- Witness for C9: a concrete parse whose returned records are the sorted
data-section records. -/
theorem claim_C9_witness :
    (parseCSVData "Thứ tự,Từ khóa,Loại từ khóa\n1,k,t,s,b,6,2,r,1,0,a,b,c,d,0,0,5,0,3,1,x,y,z,w\n2,kk,t,s,b,9,3,r,1,0,a,b,c,d,0,0,5,0,4,1,x,y,z,w").map (fun r => r.data) =
      some (sortRecords (((filteredLines "Thứ tự,Từ khóa,Loại từ khóa\n1,k,t,s,b,6,2,r,1,0,a,b,c,d,0,0,5,0,3,1,x,y,z,w\n2,kk,t,s,b,9,3,r,1,0,a,b,c,d,0,0,5,0,4,1,x,y,z,w").drop 1).filterMap parseDataLine)) :=
  (claim_C9_returned_data_resorted _ 1 (by decide)).1
